import Mathlib

/-!
Verification development for the asset-generation pipeline of the HexBuzz
repository (tool/generate_sd_assets.py).

The script drives an external Stable Diffusion backend over HTTP.  We embed it
shallowly: every HTTP interaction and filesystem write is mediated by an
explicit `Backend` oracle, a fallible call is an `Except String` value (the
`error` case standing for a raised Python exception), and the observable
behaviour of a run is collected in a trace of `Event`s (requests issued, files
written) plus the list of printed log lines.  Image bytes are `List Nat`.
-/

/-- Raw image bytes (Python `bytes`). -/
abbrev Bytes := List Nat

/-- The global SD settings table (`SD_CONFIG` in the source, lines 34-42).
The guidance scale 2.0 is represented as the rational 2; the script never
computes with it, it is only copied verbatim into each request payload. -/
structure SDConfig where
  steps : Nat
  cfg_scale : Rat
  width : Nat
  height : Nat
  sampler_name : String
  scheduler : String
  negative_prompt : String
deriving DecidableEq

/-- `SD_CONFIG` from the source, lines 34-42. -/
def SD_CONFIG : SDConfig :=
  { steps := 4
    cfg_scale := 2
    width := 512
    height := 512
    sampler_name := "DPM++ SDE"
    scheduler := "Karras"
    negative_prompt := "blurry, low quality, distorted, ugly, bad anatomy, text, watermark, signature, jpeg artifacts, noise" }

/-- One entry of the `ASSETS` registry (a Python dict per asset).  A missing
dict key is `none`; `config.get(key, default)` is `Option.getD`.  The
`prompt` key is accessed with `config["prompt"]` in the source, which raises
`KeyError` when absent, hence it too is an `Option`. -/
structure AssetSpec where
  prompt : Option String
  negative : Option String
  width : Option Nat
  height : Option Nat
  remove_bg : Option Bool
deriving DecidableEq

/-- The payload dict built by `generate_image` (source lines 250-261). -/
structure Payload where
  prompt : String
  negative_prompt : String
  steps : Nat
  cfg_scale : Rat
  width : Nat
  height : Nat
  sampler_name : String
  scheduler : String
  batch_size : Nat
  n_iter : Nat
deriving DecidableEq

/-- Observable interactions of the script with the outside world. -/
inductive Event where
  /-- GET `/sdapi/v1/options` (source line 233). -/
  | optionsQuery : Event
  /-- POST `/sdapi/v1/options` setting `sd_model_checkpoint` (lines 239-242). -/
  | switchRequest (model : String) : Event
  /-- POST `/sdapi/v1/txt2img` with the given payload (line 263). -/
  | genRequest (p : Payload) : Event
  /-- A completed file write (lines 314-315). -/
  | fileWrite (path : String) (data : Bytes) : Event
deriving DecidableEq

/-- The environment oracle: what each external call would return if issued.
An `Except.error` stands for the call raising a Python exception (network
failure, HTTP-layer error surfacing through `raise_for_status` or response
parsing, a failing `rembg`, a failing file write). -/
structure Backend where
  /-- Result of the options query: the parsed `sd_model_checkpoint` field
  (absent field is `none`, matching `.get("sd_model_checkpoint", "")`). -/
  options : Except String (Option String)
  /-- Result of the model-switch POST. -/
  switchResult : Except String Unit
  /-- Result of a txt2img POST: decoded image list of the JSON response. -/
  txt2img : Payload → Except String (List Bytes)
  /-- Whether the `rembg` import succeeded (`REMBG_AVAILABLE`, lines 22-26). -/
  rembgAvailable : Bool
  /-- Result of `remove_background` plus PIL re-encoding (lines 277-282). -/
  rembg : Bytes → Except String Bytes
  /-- Result of writing the given bytes at the given path (lines 314-315). -/
  writeRes : String → Bytes → Except String Unit

/-- Python substring test `needle in haystack`. -/
def listPre : List Char → List Char → Bool
  | [], _ => true
  | _ :: _, [] => false
  | a :: as, b :: bs => a == b && listPre as bs

/-- Python `needle in haystack` for strings. -/
def strContains (haystack needle : String) : Bool :=
  (List.range (haystack.data.length + 1)).any fun k =>
    listPre needle.data (haystack.data.drop k)

/-- `target_model` from `ensure_model` (source line 236). -/
def target_model : String := "dreamshaperXL_lightningDPMSDE.safetensors"

/-- Output directory (source line 31): `Path(__file__).parent.parent /
"assets" / "images"`, i.e. the `assets/images` directory of the repository.
We abstract the absolute path to its repository-relative form. -/
def OUTPUT_DIR : String := "assets/images"

/-- `OUTPUT_DIR / filename` (source line 293). -/
def output_path (filename : String) : String := OUTPUT_DIR ++ "/" ++ filename

instance {ε α : Type} [DecidableEq ε] [DecidableEq α] : DecidableEq (Except ε α) := fun x y =>
  match x, y with
  | .error a, .error b =>
      if h : a = b then .isTrue (congrArg Except.error h)
      else .isFalse fun hc => h (Except.error.inj hc)
  | .error _, .ok _ => .isFalse fun hc => Except.noConfusion hc
  | .ok _, .error _ => .isFalse fun hc => Except.noConfusion hc
  | .ok a, .ok b =>
      if h : a = b then .isTrue (congrArg Except.ok h)
      else .isFalse fun hc => h (Except.ok.inj hc)

/-- Result plus observable trace of the backend state guard. -/
structure GuardOut where
  result : Except String Unit
  events : List Event
  logs : List String
deriving DecidableEq

/-- `ensure_model` (source lines 230-245): query the active checkpoint, and
switch if the target model name is not a substring of it.  Any exception
raised by the query or the switch propagates (`result = error`). -/
def ensure_model (b : Backend) : GuardOut :=
  match b.options with
  | .error e =>
      { result := .error e
        events := [.optionsQuery]
        logs := ["Checking current model..."] }
  | .ok j =>
      let current := j.getD ""
      if strContains current target_model then
        { result := .ok ()
          events := [.optionsQuery]
          logs := ["Checking current model...",
                   "Already using " ++ target_model] }
      else
        match b.switchResult with
        | .error e =>
            { result := .error e
              events := [.optionsQuery, .switchRequest target_model]
              logs := ["Checking current model...",
                       "Switching to " ++ target_model ++ "..."] }
        | .ok _ =>
            { result := .ok ()
              events := [.optionsQuery, .switchRequest target_model]
              logs := ["Checking current model...",
                       "Switching to " ++ target_model ++ "...",
                       "Model switched."] }

/-- The payload dict of `generate_image` (source lines 250-261).  Note the
Python `negative or SD_CONFIG["negative_prompt"]`: an empty-string negative
falls back to the global default. -/
def generate_payload (prompt negative : String) (width height : Nat) : Payload :=
  { prompt := prompt
    negative_prompt := if negative = "" then SD_CONFIG.negative_prompt else negative
    steps := SD_CONFIG.steps
    cfg_scale := SD_CONFIG.cfg_scale
    width := width
    height := height
    sampler_name := SD_CONFIG.sampler_name
    scheduler := SD_CONFIG.scheduler
    batch_size := 1
    n_iter := 1 }

/-- `generate_image` (source lines 248-268): POST the payload, take the first
element of the response image list, decode it.  Transport and HTTP errors
raise (`raise_for_status`); an empty image list raises `IndexError`. -/
def generate_image (b : Backend) (prompt negative : String)
    (width height : Nat) : Except String Bytes × List Event :=
  let payload := generate_payload prompt negative width height
  match b.txt2img payload with
  | .error e => (.error e, [.genRequest payload])
  | .ok images =>
      match images with
      | [] => (.error "IndexError: list index out of range", [.genRequest payload])
      | img :: _ => (.ok img, [.genRequest payload])

/-- `apply_background_removal` (source lines 271-282): when `rembg` is not
importable the input bytes are returned unchanged with a warning line;
otherwise the segmentation transform runs and may raise. -/
def apply_background_removal (b : Backend) (image_data : Bytes) :
    Except String Bytes × List String :=
  if b.rembgAvailable then
    match b.rembg image_data with
    | .error e => (.error e, [])
    | .ok out => (.ok out, [])
  else
    (.ok image_data,
     ["    Warning: rembg not available, skipping background removal"])

/-- Outcome of one asset inside the batch loop. -/
inductive AssetResult where
  | saved (data : Bytes)
  | failed (err : String)
deriving DecidableEq

/-- Result, trace and log lines of processing one registry entry. -/
structure AssetOut where
  result : AssetResult
  events : List Event
  logs : List String
deriving DecidableEq

/-- The per-asset body of the loop of `generate_all_assets` (source lines
293-320): resolve each parameter with an independent `config.get` fallback
(lines 297-300), call `generate_image` with `config["prompt"]`, optionally
remove the background, then persist.  The whole attempt sits inside
`try/except Exception`, so any raised error yields `AssetResult.failed`
and the loop moves on. -/
def process_asset (b : Backend) (filename : String) (config : AssetSpec) : AssetOut :=
  let width := config.width.getD SD_CONFIG.width
  let height := config.height.getD SD_CONFIG.height
  let negative := config.negative.getD SD_CONFIG.negative_prompt
  let rb := config.remove_bg.getD false
  match config.prompt with
  | none =>
      { result := .failed "KeyError: prompt"
        events := []
        logs := ["    ERROR: KeyError prompt"] }
  | some prompt =>
      match generate_image b prompt negative width height with
      | (.error e, evs) =>
          { result := .failed e, events := evs, logs := ["    ERROR: " ++ e] }
      | (.ok image_data, evs) =>
          let post :=
            if rb then
              let ab := apply_background_removal b image_data
              (ab.1, ["    Removing background..."] ++ ab.2)
            else
              ((.ok image_data : Except String Bytes), ([] : List String))
          match post with
          | (.error e, ls) =>
              { result := .failed e, events := evs, logs := ls ++ ["    ERROR: " ++ e] }
          | (.ok final, ls) =>
              match b.writeRes (output_path filename) final with
              | .error e =>
                  { result := .failed e, events := evs
                    logs := ls ++ ["    ERROR: " ++ e] }
              | .ok _ =>
                  { result := .saved final
                    events := evs ++ [.fileWrite (output_path filename) final]
                    logs := ls ++ ["    Saved: " ++ output_path filename] }

/-- Accumulated observables of the batch loop. -/
structure LoopOut where
  results : List (String × AssetResult)
  events : List Event
  logs : List String
  files : List (String × Bytes)
deriving DecidableEq

/-- The `for i, (filename, config) in enumerate(ASSETS.items(), 1)` loop of
`generate_all_assets` (source lines 292-320), in registration order. -/
def run_loop (b : Backend) (total : Nat) : Nat → List (String × AssetSpec) → LoopOut
  | _, [] => { results := [], events := [], logs := [], files := [] }
  | i, (fn, config) :: rest =>
      let pr := process_asset b fn config
      let progress :=
        "[" ++ toString i ++ "/" ++ toString total ++ "] Generating " ++ fn ++ "..."
      let fileEntry : List (String × Bytes) :=
        match pr.result with
        | .saved d => [(output_path fn, d)]
        | .failed _ => []
      let recur := run_loop b total (i + 1) rest
      { results := (fn, pr.result) :: recur.results
        events := pr.events ++ recur.events
        logs := (progress :: pr.logs) ++ recur.logs
        files := fileEntry ++ recur.files }

/-- The final line printed by `generate_all_assets` (source line 322).  It is
a fixed string parameterised only by the output directory. -/
def complete_msg : String :=
  "Asset generation complete! Files saved to " ++ OUTPUT_DIR

/-- Observables of a whole run. -/
structure RunResult where
  /-- `ok` when the script ran to completion; `error` when an uncaught
  exception aborted it (only the state guard can raise outside the loop). -/
  outcome : Except String Unit
  results : List (String × AssetResult)
  events : List Event
  logs : List String
  files : List (String × Bytes)
deriving DecidableEq

/-- `generate_all_assets` (source lines 285-322): create the output directory,
run the state guard once (an exception there aborts the whole run before any
asset is touched), then loop over the registry and finally print the fixed
completion line. -/
def generate_all_assets (b : Backend) (registry : List (String × AssetSpec)) : RunResult :=
  let g := ensure_model b
  match g.result with
  | .error e =>
      { outcome := .error e
        results := []
        events := g.events
        logs := g.logs
        files := [] }
  | .ok _ =>
      let lo := run_loop b registry.length 1 registry
      { outcome := .ok ()
        results := lo.results
        events := g.events ++ lo.events
        logs := g.logs ++ lo.logs ++ [complete_msg]
        files := lo.files }

/-- The payload actually sent for a registry entry whose prompt is present:
the composition of the `config.get` fallbacks of the loop (lines 297-299)
with the payload construction of `generate_image` (lines 250-261). -/
def sentPayload (config : AssetSpec) (prompt : String) : Payload :=
  generate_payload prompt
    (config.negative.getD SD_CONFIG.negative_prompt)
    (config.width.getD SD_CONFIG.width)
    (config.height.getD SD_CONFIG.height)

/-- The static `ASSETS` registry (source lines 45-227), in registration order
(Python dict insertion order). -/
def ASSETS : List (String × AssetSpec) :=
  [("app_icon.png",
    { prompt := some "game app icon, golden honeycomb hexagonal pattern, glowing amber honey texture, single cute cartoon bee mascot, warm golden yellow orange gradient, glossy 3D style, mobile game icon, centered composition, high quality, professional game art, no text"
      negative := some "text, letters, words, watermark, signature, multiple bees, realistic, photograph"
      width := none, height := none, remove_bg := none }),
   ("splash_background.png",
    { prompt := some "seamless tileable pattern, honeycomb hexagonal cells background, golden amber honey dripping texture, warm cream yellow gradient, soft glow, game UI background, vector style illustration, abstract geometric, high quality"
      negative := some "text, character, bee, figure, watermark, asymmetric"
      width := none, height := none, remove_bg := none }),
   ("level_button.png",
    { prompt := some "single hexagonal game button icon, golden honeycomb cell, glossy honey texture, warm amber glow, 3D embossed style, game UI element, centered, isolated on transparent, clean edges, high quality mobile game art"
      negative := some "text, numbers, multiple, pattern, background, watermark"
      width := none, height := none, remove_bg := none }),
   ("level_button_hover.png",
    { prompt := some "single hexagonal game button icon, bright glowing golden honeycomb cell, radiant honey amber, strong glow effect, 3D embossed style, game UI hover state, centered, isolated, luminous edges, high quality mobile game art"
      negative := some "text, numbers, multiple, pattern, background, watermark"
      width := none, height := none, remove_bg := none }),
   ("lock_icon.png",
    { prompt := some "game lock icon, vintage brass padlock, honey amber tint, stylized cartoon lock, game UI element, centered, clean design, glossy finish, mobile game art style, isolated icon"
      negative := some "text, key, chain, realistic, photograph, multiple, background"
      width := none, height := none, remove_bg := some true }),
   ("star_filled.png",
    { prompt := some "golden star game icon, shining glossy gold star, warm honey amber glow, sparkles, game achievement star, 3D cartoon style, centered, isolated, mobile game UI, high quality vector style"
      negative := some "text, multiple stars, background, realistic, dull"
      width := none, height := none, remove_bg := some true }),
   ("star_empty.png",
    { prompt := some "empty star outline icon, silver grey star border, subtle shadow, game UI star placeholder, clean minimalist, centered, isolated, mobile game element, transparent center, outline only"
      negative := some "text, filled, gold, yellow, multiple, background, solid"
      width := none, height := none, remove_bg := some true }),
   ("victory_background.png",
    { prompt := some "celebration game victory screen background, golden light rays, honey drip decorations, warm amber gradient, confetti particles, festive game UI background, soft glow effect, high quality mobile game art"
      negative := some "text, character, face, realistic, dark, sad"
      width := none, height := none, remove_bg := none }),
   ("trophy_icon.png",
    { prompt := some "golden trophy cup game icon, honey amber gold, glossy 3D cartoon style, small stars around, achievement reward icon, centered, isolated, mobile game UI element, warm glow"
      negative := some "text, realistic, photograph, multiple, background, engraving"
      width := none, height := none, remove_bg := some true }),
   ("hex_cell_unvisited.png",
    { prompt := some "single hexagonal game cell, clean light cream colored honeycomb, subtle texture, soft shadow, game puzzle piece, minimalist flat design, centered, isolated, mobile game UI"
      negative := some "text, multiple, pattern, dark, visited mark, trail"
      width := none, height := none, remove_bg := none }),
   ("hex_cell_visited.png",
    { prompt := some "single hexagonal game cell, golden amber honey filled honeycomb, glowing warm yellow, translucent honey texture, game puzzle visited state, centered, isolated, mobile game UI element"
      negative := some "text, multiple, pattern, empty, cream, white"
      width := none, height := none, remove_bg := none }),
   ("hex_cell_start.png",
    { prompt := some "single hexagonal game cell, green glowing honeycomb, emerald game start marker, bright green glow effect, game puzzle start point, centered, isolated, mobile game UI"
      negative := some "text, multiple, pattern, red, yellow, bee"
      width := none, height := none, remove_bg := none }),
   ("hex_cell_end.png",
    { prompt := some "single hexagonal game cell, red glowing honeycomb, ruby game end goal marker, warm red glow effect, game puzzle destination point, centered, isolated, mobile game UI"
      negative := some "text, multiple, pattern, green, yellow, bee"
      width := none, height := none, remove_bg := none }),
   ("button_play.png",
    { prompt := some "play button game icon, golden hexagonal button with play triangle, honey amber glossy finish, 3D embossed style, game UI start button, centered, isolated, mobile game art, warm glow"
      negative := some "text, word play, multiple, background, realistic"
      width := none, height := none, remove_bg := some true }),
   ("button_retry.png",
    { prompt := some "retry refresh button game icon, circular arrow on hexagonal golden button, honey amber finish, 3D game UI element, centered, isolated, mobile game art style, clean design"
      negative := some "text, word, multiple, background, realistic"
      width := none, height := none, remove_bg := some true }),
   ("button_next.png",
    { prompt := some "next arrow button game icon, right arrow on hexagonal golden button, honey amber glossy finish, 3D game UI navigation, centered, isolated, mobile game art, forward chevron"
      negative := some "text, word next, multiple, background, realistic"
      width := none, height := none, remove_bg := some true }),
   ("button_back.png",
    { prompt := some "back arrow button game icon, left arrow on hexagonal golden button, honey amber finish, 3D game UI navigation, centered, isolated, mobile game art, back chevron"
      negative := some "text, word back, multiple, background, realistic"
      width := none, height := none, remove_bg := some true }),
   ("button_menu.png",
    { prompt := some "menu grid button game icon, 3x3 grid dots on hexagonal golden button, honey amber finish, game UI menu icon, centered, isolated, mobile game art, level select icon"
      negative := some "text, hamburger menu, lines, multiple, background"
      width := none, height := none, remove_bg := some true }),
   ("header_banner.png",
    { prompt := some "game header banner background, horizontal honeycomb pattern, golden amber gradient, honey drip decorations, warm game UI header, seamless horizontal tile, high quality mobile game art"
      negative := some "text, logo, character, vertical, square"
      width := some 1024, height := some 256, remove_bg := none }),
   ("bee_mascot.png",
    { prompt := some "cute cartoon bee character mascot, adorable happy bee, chibi style, golden yellow and black stripes, tiny wings, big eyes, game character, centered, isolated, mobile game art, kawaii style"
      negative := some "realistic, scary, angry, multiple bees, background, text"
      width := none, height := none, remove_bg := some true }),
   ("honey_drip.png",
    { prompt := some "golden honey drip decoration, translucent amber honey drop, glossy liquid texture, game UI decorative element, isolated, vertical dripping honey, high quality"
      negative := some "text, background, solid, character, bee"
      width := none, height := none, remove_bg := some true }),
   ("progress_fill.png",
    { prompt := some "seamless horizontal tile, golden honey gradient texture, glossy amber fill, game progress bar texture, smooth gradient, warm yellow orange, game UI element"
      negative := some "text, pattern, hexagon, character, vertical"
      width := some 512, height := some 64, remove_bg := none }),
   ("icon_settings.png",
    { prompt := some "settings gear icon, golden brass gear cogwheel, honey amber tint, game UI settings button, 3D cartoon style, centered, isolated, mobile game art, clean design"
      negative := some "text, multiple gears, background, realistic, rusty"
      width := none, height := none, remove_bg := some true }),
   ("icon_sound_on.png",
    { prompt := some "sound speaker icon with waves, golden amber game UI icon, 3D cartoon style, audio on indicator, centered, isolated, mobile game art element, clean design"
      negative := some "text, mute, x mark, background, realistic"
      width := none, height := none, remove_bg := some true }),
   ("icon_sound_off.png",
    { prompt := some "muted speaker icon with X mark, golden amber game UI icon, 3D cartoon style, audio mute indicator, centered, isolated, mobile game art element"
      negative := some "text, waves, sound on, background, realistic"
      width := none, height := none, remove_bg := some true }),
   ("icon_info.png",
    { prompt := some "info help icon, golden circular i button, honey amber game UI icon, 3D cartoon style, information symbol, centered, isolated, mobile game art"
      negative := some "text, question mark, background, realistic, multiple"
      width := none, height := none, remove_bg := some true }),
   ("icon_checkmark.png",
    { prompt := some "checkmark tick icon, golden amber check symbol, game UI completion icon, 3D glossy style, success indicator, centered, isolated, mobile game art, green gold"
      negative := some "text, x mark, cross, background, realistic"
      width := none, height := none, remove_bg := some true })]

/-! Concrete fixtures used to instantiate the theorems below. -/

/-- A healthy backend: the active model already matches, every request
succeeds returning a one-image list, `rembg` is not importable. -/
def bOK : Backend :=
  { options := .ok (some target_model)
    switchResult := .ok ()
    txt2img := fun _ => .ok [[1]]
    rembgAvailable := false
    rembg := fun d => .ok d
    writeRes := fun _ _ => .ok () }

/-- A backend whose options query raises a connection error. -/
def bDown : Backend := { bOK with options := .error "ConnectionError" }

/-- A backend where every generation request raises. -/
def bGenFail : Backend := { bOK with txt2img := fun _ => .error "ConnectionError" }

/-- A backend reporting a different active checkpoint. -/
def bOther : Backend := { bOK with options := .ok (some "v15Pruned.safetensors") }

/-- A backend that fails exactly the requests whose prompt is the word bad. -/
def bMix : Backend :=
  { bOK with txt2img := fun p => if p.prompt = "bad" then .error "boom" else .ok [[2]] }

/-- A spec with no overrides at all. -/
def specPlain : AssetSpec :=
  { prompt := some "hello", negative := none, width := none, height := none,
    remove_bg := none }

/-- A spec overriding only the width (the partial-override case of C1). -/
def specWidthOnly : AssetSpec :=
  { prompt := some "banner", negative := none, width := some 1024, height := none,
    remove_bg := none }

/-- A spec whose positive prompt is present but empty. -/
def specEmptyPrompt : AssetSpec :=
  { prompt := some "", negative := none, width := none, height := none,
    remove_bg := none }

/-- A spec with a non-empty negative override. -/
def specNeg : AssetSpec :=
  { prompt := some "x", negative := some "no bees", width := none, height := none,
    remove_bg := none }

/-- A spec flagged for background removal. -/
def specFlagged : AssetSpec :=
  { prompt := some "icon", negative := none, width := none, height := none,
    remove_bg := some true }

/-- A spec whose prompt makes `bMix` fail. -/
def specBad : AssetSpec :=
  { prompt := some "bad", negative := none, width := none, height := none,
    remove_bg := none }

/-- A two-asset registry whose first asset fails under `bMix`. -/
def regMix : List (String × AssetSpec) := [("a.png", specBad), ("b.png", specPlain)]

/-- Number of failed entries in a batch result list. -/
def failedCount (rs : List (String × AssetResult)) : Nat :=
  (rs.filter fun r =>
    match r.2 with
    | .failed _ => true
    | .saved _ => false).length

/-! Helper lemmas shared by several claim theorems. -/

/-- A non-empty string has positive length. -/
theorem str_length_pos (s : String) (h : ¬ s = "") : 0 < s.length := by
  rcases s with ⟨l⟩
  cases l with
  | nil => exact absurd rfl h
  | cons a as => simp [String.length]

/-- The guard only ever issues the options query and (possibly) one switch. -/
theorem ensure_model_events_cases (b : Backend) :
    (ensure_model b).events = [Event.optionsQuery]
    ∨ (ensure_model b).events = [Event.optionsQuery, Event.switchRequest target_model] := by
  unfold ensure_model
  cases b.options with
  | error e => left; rfl
  | ok j =>
      by_cases h : strContains (j.getD "") target_model
      · left; simp [h]
      · right
        simp only [h]
        cases b.switchResult with
        | error e => simp
        | ok u => simp

/-- When the prompt key is present and generation raises, the asset fails
with that error and the trace holds exactly the one generation request. -/
theorem process_asset_genfail (b : Backend) (fn p e : String) (c : AssetSpec)
    (hp : c.prompt = some p)
    (he : b.txt2img (sentPayload c p) = Except.error e) :
    process_asset b fn c =
      { result := .failed e
        events := [.genRequest (sentPayload c p)]
        logs := ["    ERROR: " ++ e] } := by
  unfold process_asset generate_image
  rw [hp]
  have hpay : generate_payload p (c.negative.getD SD_CONFIG.negative_prompt)
      (c.width.getD SD_CONFIG.width) (c.height.getD SD_CONFIG.height)
      = sentPayload c p := rfl
  simp only [hpay, he]

/-- When the prompt key is present, the first event of the asset attempt is
the generation request carrying `sentPayload`. -/
theorem process_asset_first_event (b : Backend) (fn p : String) (c : AssetSpec)
    (hp : c.prompt = some p) :
    (process_asset b fn c).events.head? = some (Event.genRequest (sentPayload c p)) := by
  unfold process_asset generate_image
  rw [hp]
  have hpay : generate_payload p (c.negative.getD SD_CONFIG.negative_prompt)
      (c.width.getD SD_CONFIG.width) (c.height.getD SD_CONFIG.height)
      = sentPayload c p := rfl
  simp only [hpay]
  cases htx : b.txt2img (sentPayload c p) with
  | error e => simp
  | ok images =>
      cases images with
      | nil => simp
      | cons img rest =>
          simp only []
          by_cases hrb : c.remove_bg.getD false
          · simp only [hrb, if_true]
            cases hab : (apply_background_removal b img).1 with
            | error e => simp [hab]
            | ok out =>
                cases hw : b.writeRes (output_path fn) out with
                | error e => simp [hab, hw]
                | ok u => simp [hab, hw]
          · simp only [hrb, if_false]
            cases hw : b.writeRes (output_path fn) img with
            | error e => simp [hw]
            | ok u => simp [hw]

/-- When generation succeeds, the asset is flagged for background removal and
`rembg` is unavailable, the pre-transform bytes are written and the asset is
recorded as saved. -/
theorem process_asset_degraded_eq (b : Backend) (fn p : String) (c : AssetSpec)
    (d : Bytes) (rest : List Bytes)
    (hav : b.rembgAvailable = false) (hp : c.prompt = some p)
    (hbg : c.remove_bg.getD false = true)
    (htx : b.txt2img (sentPayload c p) = Except.ok (d :: rest))
    (hw : b.writeRes (output_path fn) d = Except.ok ()) :
    process_asset b fn c =
      { result := .saved d
        events := [.genRequest (sentPayload c p), .fileWrite (output_path fn) d]
        logs := ["    Removing background...",
                 "    Warning: rembg not available, skipping background removal",
                 "    Saved: " ++ output_path fn] } := by
  unfold process_asset generate_image apply_background_removal
  rw [hp]
  have hpay : generate_payload p (c.negative.getD SD_CONFIG.negative_prompt)
      (c.width.getD SD_CONFIG.width) (c.height.getD SD_CONFIG.height)
      = sentPayload c p := rfl
  simp only [hpay, htx, hbg, hav, if_true, if_false, Bool.false_eq_true]
  rw [hw]
  simp

/-- The loop visits every registry entry, in order, and records for each the
outcome of its own `process_asset` attempt. -/
theorem run_loop_results (b : Backend) (total : Nat) :
    ∀ (i : Nat) (reg : List (String × AssetSpec)),
      (run_loop b total i reg).results
        = reg.map fun pc => (pc.1, (process_asset b pc.1 pc.2).result) := by
  intro i reg
  induction reg generalizing i with
  | nil => rfl
  | cons hd tl ih =>
      cases hd with
      | mk fn config => simp [run_loop, ih]

/-- Appending a final element determines `getLast?`. -/
theorem getLast_append_single (l : List String) (a : String) :
    (l ++ [a]).getLast? = some a := by
  induction l with
  | nil => rfl
  | cons x xs ih =>
      rw [List.cons_append, List.getLast?_cons]
      simp [ih]

/-! Claim theorems. -/

/-- C1 counterexample: the registry-shaped spec `specWidthOnly` overrides only
the width; the claim demands that the resolved request then use the default
pair (512, 512), but the code (source lines 297-298) resolves each dimension
independently, yielding the mix (1024, 512). -/
theorem resolved_dims_mix_counterexample :
    (sentPayload specWidthOnly "banner").width = 1024
    ∧ (sentPayload specWidthOnly "banner").height = 512
    ∧ ¬ ((sentPayload specWidthOnly "banner").width = SD_CONFIG.width
         ∧ (sentPayload specWidthOnly "banner").height = SD_CONFIG.height) := by
  decide

/-- C1 (amended): each dimension of the resolved request falls back to the
global default independently (`config.get` per key, source lines 297-298): a
spec overriding only the width yields the override width with the default
height (a mix), symmetrically for height, and both overrides are used when
both are present. -/
theorem resolved_dims_independent (c : AssetSpec) (p : String) :
    (∀ w, c.width = some w → c.height = none →
      (sentPayload c p).width = w ∧ (sentPayload c p).height = SD_CONFIG.height)
    ∧ (∀ h, c.height = some h → c.width = none →
      (sentPayload c p).height = h ∧ (sentPayload c p).width = SD_CONFIG.width)
    ∧ (∀ w h, c.width = some w → c.height = some h →
      (sentPayload c p).width = w ∧ (sentPayload c p).height = h) := by
  refine ⟨?_, ?_, ?_⟩
  · intro w hw hh
    simp [sentPayload, generate_payload, hw, hh]
  · intro h hh hw
    simp [sentPayload, generate_payload, hw, hh]
  · intro w h hw hh
    simp [sentPayload, generate_payload, hw, hh]

/-- C1 witness: the amended statement evaluated on `specWidthOnly`. -/
theorem resolved_dims_independent_witness :
    (sentPayload specWidthOnly "banner").width = 1024
    ∧ (sentPayload specWidthOnly "banner").height = SD_CONFIG.height :=
  (resolved_dims_independent specWidthOnly "banner").1 1024 rfl rfl

/-- C2: once the state guard has succeeded, the orchestrator iterates the
whole registry in registration order and finishes normally: the recorded
outcome list pairs every identifier, in order, with the result of its own
`process_asset` attempt (which is `AssetResult.failed` exactly when that
attempt raised), so one asset failing never prevents a later asset from being
attempted and the run never aborts (source lines 292-322, the per-asset
`try/except`). -/
theorem batch_isolates_failures (b : Backend) (reg : List (String × AssetSpec))
    (hok : (ensure_model b).result = Except.ok ()) :
    (generate_all_assets b reg).results
      = reg.map (fun pc => (pc.1, (process_asset b pc.1 pc.2).result))
    ∧ (generate_all_assets b reg).outcome = Except.ok () := by
  simp only [generate_all_assets, hok]
  exact ⟨run_loop_results b reg.length 1 reg, trivial⟩

/-- C2 witness: on a two-asset registry whose first asset fails under `bMix`,
the second asset is still attempted and saved. -/
theorem batch_isolates_failures_witness :
    (ensure_model bMix).result = Except.ok ()
    ∧ (generate_all_assets bMix regMix).results
        = regMix.map (fun pc => (pc.1, (process_asset bMix pc.1 pc.2).result))
    ∧ (generate_all_assets bMix regMix).results
        = [("a.png", AssetResult.failed "boom"), ("b.png", AssetResult.saved [2])] :=
  ⟨rfl, (batch_isolates_failures bMix regMix rfl).1, by decide⟩

/-- C3: the guard issues the model-switch request exactly when the queried
active checkpoint does not contain `target_model` as a substring, and issues
no mutation request at all when it does (source lines 236-245). -/
theorem model_switch_iff (b : Backend) (j : Option String)
    (hq : b.options = Except.ok j) :
    (Event.switchRequest target_model ∈ (ensure_model b).events
      ↔ strContains (j.getD "") target_model = false)
    ∧ (strContains (j.getD "") target_model = true →
        ∀ m, Event.switchRequest m ∉ (ensure_model b).events) := by
  unfold ensure_model
  rw [hq]
  by_cases h : strContains (j.getD "") target_model
  · simp [h]
  · cases hs : b.switchResult with
    | error e => simp [h, hs]
    | ok u => simp [h, hs]

/-- C3 witness: a backend reporting a non-matching checkpoint receives the
switch request. -/
theorem model_switch_iff_witness :
    Event.switchRequest target_model ∈ (ensure_model bOther).events :=
  (model_switch_iff bOther (some "v15Pruned.safetensors") rfl).1.mpr (by decide)

/-- C4: when the one-time guard raises (its query or switch call fails), the
whole run aborts with that error before any asset is touched: no outcome is
recorded, no generation request is issued and no file is written (source
lines 287-292: `ensure_model()` runs outside the per-asset `try`). -/
theorem guard_failure_aborts (b : Backend) (reg : List (String × AssetSpec))
    (e : String) (hg : (ensure_model b).result = Except.error e) :
    (generate_all_assets b reg).outcome = Except.error e
    ∧ (generate_all_assets b reg).results = []
    ∧ (generate_all_assets b reg).files = []
    ∧ (∀ p, Event.genRequest p ∉ (generate_all_assets b reg).events)
    ∧ (∀ q d, Event.fileWrite q d ∉ (generate_all_assets b reg).events) := by
  simp only [generate_all_assets, hg]
  refine ⟨trivial, trivial, trivial, ?_, ?_⟩
  · intro p
    rcases ensure_model_events_cases b with h | h <;> rw [h] <;> simp
  · intro q d
    rcases ensure_model_events_cases b with h | h <;> rw [h] <;> simp

/-- C4 witness: with the options query raising a connection error, the run
aborts with that error and writes nothing. -/
theorem guard_failure_aborts_witness :
    (ensure_model bDown).result = Except.error "ConnectionError"
    ∧ (generate_all_assets bDown regMix).outcome = Except.error "ConnectionError"
    ∧ (generate_all_assets bDown regMix).files = [] :=
  ⟨rfl, (guard_failure_aborts bDown regMix "ConnectionError" rfl).1,
   (guard_failure_aborts bDown regMix "ConnectionError" rfl).2.2.1⟩

/-- C5 counterexample: a spec whose positive prompt is the empty string is
not rejected: under a healthy backend the generation request is issued with
the empty prompt verbatim, the asset succeeds, and no `InvalidSpec` failure
occurs anywhere (the code, lines 302-308, performs no prompt validation). -/
theorem empty_prompt_sent_counterexample :
    (sentPayload specEmptyPrompt "").prompt = ""
    ∧ (process_asset bOK "a.png" specEmptyPrompt).events.head?
        = some (Event.genRequest (sentPayload specEmptyPrompt ""))
    ∧ (process_asset bOK "a.png" specEmptyPrompt).result = AssetResult.saved [1] := by
  refine ⟨rfl, ?_, rfl⟩
  exact process_asset_first_event bOK "a.png" "" specEmptyPrompt rfl

/-- C5 (amended): config resolution performs no emptiness check on the
positive prompt: whenever the prompt key is present — even as the empty
string — a generation request is sent carrying that prompt verbatim; only a
missing prompt key raises (`KeyError`), and that error is caught at the
asset boundary, not surfaced as a batch-fatal `InvalidSpec`. -/
theorem prompt_not_validated (b : Backend) (fn p : String) (c : AssetSpec)
    (hp : c.prompt = some p) :
    (process_asset b fn c).events.head? = some (Event.genRequest (sentPayload c p))
    ∧ (sentPayload c p).prompt = p :=
  ⟨process_asset_first_event b fn p c hp, rfl⟩

/-- C5 witness: the amended statement evaluated on the empty-prompt spec. -/
theorem prompt_not_validated_witness :
    (process_asset bGenFail "a.png" specEmptyPrompt).events.head?
      = some (Event.genRequest (sentPayload specEmptyPrompt "")) :=
  (prompt_not_validated bGenFail "a.png" "" specEmptyPrompt rfl).1

/-- C6: the negative prompt of the request actually sent is the override when
it is present and non-empty, and the global default when the override is
absent or empty (the `config.get` fallback of line 299 composed with the
`negative or SD_CONFIG` fallback of line 252). -/
theorem negative_resolution (b : Backend) (fn p : String) (c : AssetSpec)
    (hp : c.prompt = some p) :
    (process_asset b fn c).events.head? = some (Event.genRequest (sentPayload c p))
    ∧ (∀ n, c.negative = some n → ¬ n = "" →
        (sentPayload c p).negative_prompt = n)
    ∧ (c.negative = none ∨ c.negative = some "" →
        (sentPayload c p).negative_prompt = SD_CONFIG.negative_prompt) := by
  refine ⟨process_asset_first_event b fn p c hp, ?_, ?_⟩
  · intro n hn hne
    simp [sentPayload, generate_payload, hn, hne]
  · have hdef : ¬ SD_CONFIG.negative_prompt = "" := by decide
    rintro (h | h) <;> simp [sentPayload, generate_payload, h, hdef]

/-- C6 witness: the non-empty override of `specNeg` is transmitted. -/
theorem negative_resolution_witness :
    (sentPayload specNeg "x").negative_prompt = "no bees" :=
  (negative_resolution bOK "n.png" "x" specNeg rfl).2.1 "no bees" rfl (by decide)

/-- C7: when `rembg` is unavailable, `apply_background_removal` returns its
input unchanged for every input (lines 273-275), and an asset flagged for
background removal whose generation succeeded is still persisted with the
pre-transform bytes and recorded as saved, not failed (lines 310-317). -/
theorem degraded_removal_still_persists (b : Backend) (fn p : String)
    (c : AssetSpec) (d : Bytes) (rest : List Bytes)
    (hav : b.rembgAvailable = false)
    (hp : c.prompt = some p)
    (hbg : c.remove_bg = some true)
    (htx : b.txt2img (sentPayload c p) = Except.ok (d :: rest))
    (hw : b.writeRes (output_path fn) d = Except.ok ()) :
    (∀ input, (apply_background_removal b input).1 = Except.ok input)
    ∧ (process_asset b fn c).result = AssetResult.saved d
    ∧ Event.fileWrite (output_path fn) d ∈ (process_asset b fn c).events := by
  have hbg2 : c.remove_bg.getD false = true := by rw [hbg]; rfl
  have heq := process_asset_degraded_eq b fn p c d rest hav hp hbg2 htx hw
  refine ⟨?_, ?_, ?_⟩
  · intro input
    simp [apply_background_removal, hav]
  · rw [heq]
  · rw [heq]
    simp

/-- C7 witness: the flagged spec under the rembg-less healthy backend. -/
theorem degraded_removal_still_persists_witness :
    (process_asset bOK "lock_icon.png" specFlagged).result = AssetResult.saved [1]
    ∧ Event.fileWrite (output_path "lock_icon.png") [1]
        ∈ (process_asset bOK "lock_icon.png" specFlagged).events :=
  ⟨(degraded_removal_still_persists bOK "lock_icon.png" "icon" specFlagged
      [1] [] rfl rfl rfl rfl rfl).2.1,
   (degraded_removal_still_persists bOK "lock_icon.png" "icon" specFlagged
      [1] [] rfl rfl rfl rfl rfl).2.2⟩

/-- C8 counterexample: the terminal line of a run is the same fixed string
whether zero or two assets failed, so it cannot contain the succeeded/failed
counts or the failed identifiers; the only terminal output of the code is
the fixed completion message of line 322. -/
theorem summary_lacks_counts_counterexample :
    (generate_all_assets bOK regMix).logs.getLast?
      = (generate_all_assets bGenFail regMix).logs.getLast?
    ∧ failedCount (generate_all_assets bOK regMix).results = 0
    ∧ failedCount (generate_all_assets bGenFail regMix).results = 2 := by
  refine ⟨rfl, rfl, rfl⟩

/-- C8 (amended): after every asset has been processed the run prints a fixed
completion message naming only the output directory — identical for every
outcome distribution; failures appear solely as inline per-asset ERROR lines
during the loop, and no terminal summary of counts or failed identifiers is
produced. -/
theorem final_line_fixed (b : Backend) (reg : List (String × AssetSpec))
    (hok : (ensure_model b).result = Except.ok ()) :
    (generate_all_assets b reg).logs.getLast? = some complete_msg := by
  simp only [generate_all_assets, hok]
  exact getLast_append_single _ _

/-- C8 witness: the amended statement on a concrete failing run. -/
theorem final_line_fixed_witness :
    (generate_all_assets bGenFail regMix).logs.getLast? = some complete_msg :=
  final_line_fixed bGenFail regMix rfl

/-- C9: nothing is persisted for an asset whose generation call raises — its
trace holds no file write at all — while an asset whose generation succeeded
and whose optional background-removal step merely degraded is persisted with
the pre-transform bytes; the write (lines 314-315) runs only after generation
and post-processing completed. -/
theorem persist_asymmetry (b : Backend) (fn p : String) (c : AssetSpec)
    (hp : c.prompt = some p) :
    (∀ e, b.txt2img (sentPayload c p) = Except.error e →
      (process_asset b fn c).result = AssetResult.failed e
      ∧ ∀ q d, Event.fileWrite q d ∉ (process_asset b fn c).events)
    ∧ (∀ d rest, b.txt2img (sentPayload c p) = Except.ok (d :: rest) →
        c.remove_bg.getD false = true → b.rembgAvailable = false →
        b.writeRes (output_path fn) d = Except.ok () →
        Event.fileWrite (output_path fn) d ∈ (process_asset b fn c).events) := by
  constructor
  · intro e he
    rw [process_asset_genfail b fn p e c hp he]
    exact ⟨rfl, by intro q d; simp⟩
  · intro d rest htx hbg hav hw
    rw [process_asset_degraded_eq b fn p c d rest hav hp hbg htx hw]
    simp

/-- C9 witness: the generation-failure half on a concrete failing backend. -/
theorem persist_asymmetry_witness :
    (process_asset bGenFail "a.png" specPlain).result
      = AssetResult.failed "ConnectionError"
    ∧ Event.fileWrite (output_path "a.png") [1]
        ∉ (process_asset bGenFail "a.png" specPlain).events :=
  ⟨((persist_asymmetry bGenFail "a.png" "hello" specPlain rfl).1
      "ConnectionError" rfl).1,
   ((persist_asymmetry bGenFail "a.png" "hello" specPlain rfl).1
      "ConnectionError" rfl).2 (output_path "a.png") [1]⟩

/-- C10: the negative_prompt field of every request actually transmitted is
non-empty: the hard-coded global default (line 41) is itself non-empty and is
substituted whenever the per-asset override is absent or empty, so the
backend never receives an empty negative prompt. -/
theorem sent_negative_nonempty (b : Backend) (fn p : String) (c : AssetSpec)
    (hp : c.prompt = some p) :
    (process_asset b fn c).events.head? = some (Event.genRequest (sentPayload c p))
    ∧ 0 < (sentPayload c p).negative_prompt.length
    ∧ 0 < SD_CONFIG.negative_prompt.length := by
  refine ⟨process_asset_first_event b fn p c hp, ?_, by decide⟩
  cases hn : c.negative with
  | none =>
      simp only [sentPayload, generate_payload, hn, Option.getD]
      decide
  | some n =>
      by_cases hne : n = ""
      · simp only [sentPayload, generate_payload, hn, Option.getD, hne]
        decide
      · simp only [sentPayload, generate_payload, hn, Option.getD, if_neg hne]
        exact str_length_pos n hne

/-- C10 witness: a spec with no negative override is sent the default. -/
theorem sent_negative_nonempty_witness :
    (process_asset bOK "p.png" specPlain).events.head?
      = some (Event.genRequest (sentPayload specPlain "hello"))
    ∧ 0 < (sentPayload specPlain "hello").negative_prompt.length :=
  ⟨(sent_negative_nonempty bOK "p.png" "hello" specPlain rfl).1,
   (sent_negative_nonempty bOK "p.png" "hello" specPlain rfl).2.1⟩
